import Mathlib

/-!
Verification development for the ai-monitoring-agent backend core
(`backend/app`): the connector manager fan-out, the NLP query
parser/translator, the response synthesizer fallback, the Azure/Prometheus
alert and metric parsers, and the conversation engine's session store.

Python code is shallowly embedded: dictionaries with string keys become
association lists (first binding wins on lookup, assignment replaces),
`x in s` on strings becomes char-list infix testing, numeric metric values
become rationals (the code never relies on float rounding for the
properties treated here), datetimes are kept as their ISO strings, and a
call that may raise is modelled with `Option`/`Except` (`none`/`error` =
an exception was raised).  `async`/`await` sequencing is straight-line
sequencing: every awaited call either returns a value or raises, which the
enclosing `try`/`except` turns into the documented fallback.
-/

namespace AIMonitor

/-- Substring occurrence on character lists, by structural recursion (the
needle occurs as a prefix of some suffix of the haystack). -/
def listIsInfix (n : List Char) : List Char → Bool
  | [] => n.isEmpty
  | h :: t => n.isPrefixOf (h :: t) || listIsInfix n t

/-- Python `needle in haystack` for strings: substring containment. -/
def pyIn (needle haystack : String) : Bool :=
  listIsInfix needle.toList haystack.toList

/-- Python `s.lower()` (ASCII; every string these claims evaluate is
ASCII). -/
def pyLower (s : String) : String :=
  String.mk (s.data.map Char.toLower)

/-- Python `list(set(xs))` for string lists.  CPython yields the elements in
an unspecified order; we keep the first occurrence of each element.  Every
claim proved below evaluates this only on results whose order is
irrelevant (singletons or membership facts). -/
def pySetList (xs : List String) : List String :=
  xs.eraseDups

/-- Python `d.get(k, default)` on a string-keyed dict (association list,
first binding wins). -/
def dictGetD (d : List (String × String)) (k v : String) : String :=
  (d.lookup k).getD v

/-- Python `d[k] = v` on a dict: replaces any existing binding for `k`. -/
def dictInsert (d : List (String × String)) (k v : String) : List (String × String) :=
  (d.filter (fun p => p.1 ≠ k)) ++ [(k, v)]

/-! ### Shared data shapes

`MetricOut` is the record of keyword arguments every connector call site
passes to the `MetricData(...)` constructor (`name`, `value`, `timestamp`,
`labels`, `unit`), and `ParsedAlert` likewise for `AlertData(...)`.  They
are the shapes the code *builds*; `models.py` declares the pydantic models
with different required fields (`MetricData`: `metric_name`, `values`,
`query`; `AlertData`: `alert_name`, `status`, `active_at`, ...), so the
constructors reject these keyword sets.  Pydantic construction is embedded
below as a required-field check over the passed keyword names (unknown
keywords are ignored, a missing required field raises `ValidationError`),
exactly as for `ChatMessage` further down. -/

structure MetricOut where
  name : String
  value : ℚ
  timestamp : String
  labels : List (String × String)
  unit : String
deriving Repr, DecidableEq

structure ParsedAlert where
  name : String
  severity : String
  description : String
  service : String
  labels : List (String × String)
deriving Repr, DecidableEq

/-- The fields of `models.AlertData` that have no default and are
therefore required: `alert_name`, `severity`, `status`, `labels`,
`active_at`. -/
def alertDataRequiredFields : List String :=
  ["alert_name", "severity", "status", "labels", "active_at"]

/-- The keyword names every connector call site passes to `AlertData(...)`
(azure_monitor.py:342-351, prometheus.py:86-93 and 190-199 all pass the
same six). -/
def connectorAlertKwargs : List String :=
  ["name", "severity", "description", "service", "timestamp", "labels"]

/-- Pydantic construction check for `models.AlertData`: unknown keywords
are ignored and every required field must be supplied, else
`ValidationError` is raised. -/
def alertDataCtorOk (provided : List String) : Bool :=
  alertDataRequiredFields.all (fun f => provided.contains f)

/-- The `ValidationError` text for an `AlertData` construction missing its
required fields. -/
def alertDataValidationError : String :=
  "3 validation errors for AlertData: alert_name, status, active_at fields required"

/-- The fields of `models.MetricData` that have no default and are
therefore required: `metric_name`, `values`, `query`. -/
def metricDataRequiredFields : List String :=
  ["metric_name", "values", "query"]

/-- The keyword names the Azure metrics parser passes to
`MetricData(...)` (azure_monitor.py:278-284). -/
def connectorMetricKwargs : List String :=
  ["name", "value", "timestamp", "labels", "unit"]

/-- Pydantic construction check for `models.MetricData`. -/
def metricDataCtorOk (provided : List String) : Bool :=
  metricDataRequiredFields.all (fun f => provided.contains f)

/-- The `ValidationError` text for a `MetricData` construction missing its
required fields. -/
def metricDataValidationError : String :=
  "3 validation errors for MetricData: metric_name, values, query fields required"

/-! ### Azure Monitor connector (`connectors/azure_monitor.py`) -/

/-- State of an `AzureMonitorConnector` instance (the `self` fields). -/
structure AzureConnectorState where
  subscription_id : String
  client_id : String
  client_secret : String
  tenant_id : String
  access_token : Option String
  token_expires : Option String
deriving Repr, DecidableEq

/-- `AzureMonitorConnector.get_metrics_list`: returns the hard-coded
`common_metrics` list; reads nothing from `self` and performs no remote
call (it is total, so it cannot fail). -/
def azure_get_metrics_list (_s : AzureConnectorState) : List String :=
  [ "Percentage CPU"
  , "Network In Total"
  , "Network Out Total"
  , "Disk Read Bytes"
  , "Disk Write Bytes"
  , "Available Memory Bytes"
  , "Total Requests"
  , "Response Time"
  , "Failed Requests"
  , "Successful Requests"
  , "CPU Credits Consumed"
  , "CPU Credits Remaining"
  , "Data Disk IOPS Consumed Percentage"
  , "OS Disk IOPS Consumed Percentage" ]

/-- One entry of the Azure alerts payload: the string fields of
`alert["properties"]["essentials"]` and
`alert["properties"]["context"]["description"]` (absent context modelled
as `none`). -/
structure AzureAlertEntry where
  essentials : List (String × String)
  contextDescription : Option String
deriving Repr, DecidableEq

/-- `AzureMonitorConnector._parse_azure_alerts`: attempts one
`AlertData(...)` per entry of `data["value"]`, with severity computed as
`essentials.get("severity", "Sev3").lower()` before the call.  The keyword
set `connectorAlertKwargs` omits the required `alert_name`/`status`/
`active_at` fields, so the first constructed alert raises
`ValidationError` (`Except.error`); only an alert-free payload returns. -/
def parse_azure_alerts : List AzureAlertEntry → Except String (List ParsedAlert)
  | [] => Except.ok []
  | a :: rest =>
    if alertDataCtorOk connectorAlertKwargs then
      match parse_azure_alerts rest with
      | Except.ok l =>
        Except.ok
          ({ name := dictGetD a.essentials "alertRule" "Unknown"
           , severity := pyLower (dictGetD a.essentials "severity" "Sev3")
           , description := a.contextDescription.getD ""
           , service := dictGetD a.essentials "targetResourceName" "unknown"
           , labels := a.essentials } :: l)
      | Except.error e => Except.error e
    else Except.error alertDataValidationError

/-- `AzureMonitorConnector.get_active_alerts` on a 200 response payload:
the surrounding `try` catches the parse's `ValidationError` and the method
returns `[]`. -/
def azure_get_active_alerts (entries : List AzureAlertEntry) : List ParsedAlert :=
  match parse_azure_alerts entries with
  | Except.ok l => l
  | Except.error _ => []

/-- One data point of an Azure metrics timeseries: `timeStamp` plus the
four optional aggregates. -/
structure AzurePoint where
  timeStamp : Option String
  average : Option ℚ
  maximum : Option ℚ
  minimum : Option ℚ
  total : Option ℚ
deriving Repr, DecidableEq

structure AzureTimeseries where
  metadatavalues : List (String × String)
  data : List AzurePoint
deriving Repr, DecidableEq

/-- One entry of `data["value"]` in the Azure metrics payload:
`metric["name"]["value"]` and `metric["unit"]` (absent modelled `none`). -/
structure AzureMetricEntry where
  name : Option String
  unit : Option String
  timeseries : List AzureTimeseries
deriving Repr, DecidableEq

/-- Python `a or b` specialised to optional floats: `None` and `0.0` are
falsy, so a present-but-zero left operand falls through to the right. -/
def pyOrQ (a b : Option ℚ) : Option ℚ :=
  match a with
  | some x => if x = 0 then b else some x
  | none => b

/-- The value-selection expression of `_parse_azure_metrics`:
`point.get('average') or point.get('maximum') or point.get('minimum') or
point.get('total')`. -/
def selectAggValue (p : AzurePoint) : Option ℚ :=
  pyOrQ p.average (pyOrQ p.maximum (pyOrQ p.minimum p.total))

/-- `AzureMonitorConnector._convert_azure_unit`. -/
def convert_azure_unit (unit : String) : String :=
  if unit = "Percent" then "percent"
  else if unit = "Count" then "count"
  else if unit = "Bytes" then "bytes"
  else if unit = "Seconds" then "seconds"
  else if unit = "BytesPerSecond" then "bytes_per_second"
  else if unit = "CountPerSecond" then "per_second"
  else if unit = "Milliseconds" then "milliseconds"
  else pyLower unit

/-- `resource_id.split('/')[-2] if '/' in resource_id else 'unknown'`. -/
def resourceTypeOf (resource_id : String) : String :=
  if pyIn "/" resource_id then
    let parts := resource_id.splitOn "/"
    (parts.getD (parts.length - 2) "")
  else "unknown"

/-- The per-point loop of `_parse_azure_metrics`: a point without a
`timeStamp`, or whose `or`-chain value is `None`, is skipped without
constructing anything; a timestamped point with a value attempts
`MetricData(...)` with keywords `connectorMetricKwargs`, whose required
`metric_name`/`values`/`query` fields are missing, so that first
construction raises `ValidationError`. -/
def emit_azure_points (mname munit : String) (labels : List (String × String)) :
    List AzurePoint → Except String (List MetricOut)
  | [] => Except.ok []
  | p :: ps =>
    match p.timeStamp with
    | none => emit_azure_points mname munit labels ps
    | some t =>
      match selectAggValue p with
      | none => emit_azure_points mname munit labels ps
      | some v =>
        if metricDataCtorOk connectorMetricKwargs then
          match emit_azure_points mname munit labels ps with
          | Except.ok l =>
            Except.ok ({ name := mname, value := v, timestamp := t
                       , labels := labels, unit := convert_azure_unit munit } :: l)
          | Except.error e => Except.error e
        else Except.error metricDataValidationError

/-- The per-timeseries loop of `_parse_azure_metrics`: builds the label
dict (metadata dimensions with non-empty name and value, then
`resource_id` and `resource_type`) and walks the data points. -/
def emit_azure_timeseries (mname munit resource_id : String) :
    List AzureTimeseries → Except String (List MetricOut)
  | [] => Except.ok []
  | ts :: tss =>
    let labels0 := ts.metadatavalues.foldl
      (fun d nv => if nv.1 ≠ "" ∧ nv.2 ≠ "" then dictInsert d nv.1 nv.2 else d) []
    let labels := dictInsert (dictInsert labels0 "resource_id" resource_id)
      "resource_type" (resourceTypeOf resource_id)
    match emit_azure_points mname munit labels ts.data with
    | Except.ok l =>
      match emit_azure_timeseries mname munit resource_id tss with
      | Except.ok l2 => Except.ok (l ++ l2)
      | Except.error e => Except.error e
    | Except.error e => Except.error e

/-- `AzureMonitorConnector._parse_azure_metrics`: walks
value → timeseries → data; raises `ValidationError` at its first would-be
sample (see `emit_azure_points`) and returns only for sample-free
payloads. -/
def parse_azure_metrics : List AzureMetricEntry → String → Except String (List MetricOut)
  | [], _ => Except.ok []
  | m :: rest, resource_id =>
    match emit_azure_timeseries (m.name.getD "unknown") (m.unit.getD "count")
        resource_id m.timeseries with
    | Except.ok l =>
      match parse_azure_metrics rest resource_id with
      | Except.ok l2 => Except.ok (l ++ l2)
      | Except.error e => Except.error e
    | Except.error e => Except.error e

/-- `AzureMonitorConnector._get_resource_metrics` on a 200 response: the
surrounding `try` catches the parse's `ValidationError` and the method
returns `[]`. -/
def azure_get_resource_metrics (entries : List AzureMetricEntry)
    (resource_id : String) : List MetricOut :=
  match parse_azure_metrics entries resource_id with
  | Except.ok l => l
  | Except.error _ => []

/-! ### Prometheus connector (`connectors/prometheus.py`) -/

/-- One entry of the Alertmanager `/api/v1/alerts` payload:
`alert["status"]["state"]`, `alert["labels"]`, `alert["annotations"]`. -/
structure AmAlertEntry where
  state : String
  labels : List (String × String)
  annots : List (String × String)
deriving Repr, DecidableEq

/-- `PrometheusConnector._parse_alertmanager_response`: skips entries whose
state is not `"active"`; for an active entry it attempts `AlertData(...)`
with keywords `connectorAlertKwargs` (severity computed as
`labels.get("severity", "warning")` beforehand), which misses the required
`alert_name`/`status`/`active_at` fields -- the first active entry raises
`ValidationError`. -/
def parse_alertmanager_response : List AmAlertEntry → Except String (List ParsedAlert)
  | [] => Except.ok []
  | a :: rest =>
    if a.state = "active" then
      if alertDataCtorOk connectorAlertKwargs then
        match parse_alertmanager_response rest with
        | Except.ok l =>
          Except.ok
            ({ name := dictGetD a.labels "alertname" "Unknown"
             , severity := dictGetD a.labels "severity" "warning"
             , description := dictGetD a.annots "description" (dictGetD a.annots "summary" "")
             , service := dictGetD a.labels "service" (dictGetD a.labels "job" "unknown")
             , labels := a.labels } :: l)
        | Except.error e => Except.error e
      else Except.error alertDataValidationError
    else parse_alertmanager_response rest

/-- The firing-`ALERTS` fallback of `PrometheusConnector.get_active_alerts`:
attempts one `AlertData(...)` per metric returned by the
`ALERTS\x7balertstate="firing"\x7d` query, raising at the first metric for
the same missing required fields. -/
def alerts_from_firing : List MetricOut → Except String (List ParsedAlert)
  | [] => Except.ok []
  | m :: rest =>
    if alertDataCtorOk connectorAlertKwargs then
      match alerts_from_firing rest with
      | Except.ok l =>
        Except.ok
          ({ name := dictGetD m.labels "alertname" "Unknown"
           , severity := dictGetD m.labels "severity" "warning"
           , description := dictGetD m.labels "description" ""
           , service := dictGetD m.labels "service" (dictGetD m.labels "job" "unknown")
           , labels := m.labels } :: l)
      | Except.error e => Except.error e
    else Except.error alertDataValidationError

/-- `PrometheusConnector.get_active_alerts`: a 200 Alertmanager response
(`amResp = some entries`) is parsed and returned; otherwise the firing
fallback is queried and its metrics converted.  Either path's
`ValidationError` is caught by the method's `try`, which returns `[]`. -/
def prometheus_get_active_alerts (amResp : Option (List AmAlertEntry))
    (firingMetrics : List MetricOut) : List ParsedAlert :=
  match amResp with
  | some entries =>
    match parse_alertmanager_response entries with
    | Except.ok l => l
    | Except.error _ => []
  | none =>
    match alerts_from_firing firingMetrics with
    | Except.ok l => l
    | Except.error _ => []

/-! ### Connector manager (`connectors/manager.py`)

A connector's per-turn behaviour is its name plus the outcome of its
`health_check()` call (`none` = the call raised) and of its
`query_metrics(query)` call as a function of the query string (`none` =
the call raised or timed out).  `ConnectorManager.connectors` is a dict
keyed by connector name, so the managed list carries pairwise-distinct
names; theorems take that as a hypothesis. -/

structure Connector where
  name : String
  health : Option Bool
  query : String → Option (List MetricOut)

/-- `ConnectorManager.get_healthy_connectors`: keeps a connector whose
`health_check()` returned a truthy value; a raised check (`none`) counts
as unhealthy and is skipped, never propagated. -/
def get_healthy_connectors (connectors : List Connector) : List Connector :=
  connectors.filter (fun c => c.health.getD false)

/-- `ConnectorManager.query_all_connectors`: builds `results[c.name]` for
each healthy connector; a raised `query_metrics` contributes `[]` for that
entry and the loop continues. -/
def query_all_connectors (connectors : List Connector) (q : String) :
    List (String × List MetricOut) :=
  (get_healthy_connectors connectors).map (fun c => (c.name, (c.query q).getD []))

/-! ### NLP processor (`ai/nlp_processor.py`) -/

/-- `self.metric_patterns`, in dict insertion order. -/
def metric_patterns : List (String × List String) :=
  [ ("cpu", ["cpu", "processor", "computation"])
  , ("memory", ["memory", "ram", "mem"])
  , ("disk", ["disk", "storage", "io", "filesystem"])
  , ("network", ["network", "net", "bandwidth", "traffic"])
  , ("latency", ["latency", "response time", "delay"])
  , ("throughput", ["throughput", "requests per second", "rps", "qps"])
  , ("errors", ["error", "failure", "exception", "fault"]) ]

/-- `NLPProcessor._extract_metrics`: direct substring matches against the
available metric names, then up to three per matching keyword category,
deduplicated via `list(set(...))`. -/
def extract_metrics (query : String) (available_metrics : List String) : List String :=
  let q := pyLower query
  let direct := available_metrics.filter (fun m => pyIn (pyLower m) q)
  let byCategory := (metric_patterns.filter
      (fun cat => cat.2.any (fun pat => pyIn pat q))).flatMap
    (fun cat => (available_metrics.filter (fun m => pyIn cat.1 (pyLower m))).take 3)
  pySetList (direct ++ byCategory)

/-- Python whitespace class `\s` (ASCII cases; the queries treated here
contain none of the exotic ones). -/
def isPySpace (c : Char) : Bool :=
  c = ' ' ∨ c = '\t' ∨ c = '\n' ∨ c = '\r' ∨ c = '\x0b' ∨ c = '\x0c'

/-- A quote character of the pattern class `["\x27]`. -/
def isQuoteChar (c : Char) : Bool :=
  c = '"' ∨ c = '\x27'

/-- Worker for `findallQuoted`, structurally recursive on a fuel bound so
that it reduces inside the kernel; each step consumes at least one
character, so `l.length` fuel always suffices. -/
def findallQuotedAux : Nat → List Char → List String
  | 0, _ => []
  | _ + 1, [] => []
  | fuel + 1, c :: rest =>
    if isQuoteChar c then
      match rest.dropWhile (fun d => ¬ isQuoteChar d) with
      | _q :: tail =>
        let run := rest.takeWhile (fun d => ¬ isQuoteChar d)
        if run.isEmpty then findallQuotedAux fuel rest
        else String.mk run :: findallQuotedAux fuel tail
      | [] => findallQuotedAux fuel rest
    else findallQuotedAux fuel rest

/-- `re.findall(r'["\x27]([^"\x27]+)["\x27]', query)`: leftmost
non-overlapping runs of non-quote characters enclosed in quote characters
(`"` or `\x27`), scanning resuming after each closing quote. -/
def findallQuoted (l : List Char) : List String :=
  findallQuotedAux l.length l

/-- `NLPProcessor._extract_services`: direct lowercase substring matches
against the available service names, plus quoted substrings that exactly
name an available service, deduplicated via `list(set(...))`. -/
def extract_services (query : String) (available_services : List String) : List String :=
  let q := pyLower query
  let direct := available_services.filter (fun s => pyIn (pyLower s) q)
  let quoted := (findallQuoted query.toList).filter
    (fun m => available_services.contains m)
  pySetList (direct ++ quoted)

/-- `re.search(r'(\d+)\s*(m|h|d|s)', q)` specialised to the use in
`_extract_time_range`: the leftmost maximal digit run that is followed
(after optional whitespace) by one of the unit letters, returned as
digits ++ unit. -/
def searchNumericTimeAux : Nat → List Char → Option String
  | 0, _ => none
  | _ + 1, [] => none
  | fuel + 1, c :: rest =>
    if c.isDigit then
      match (rest.dropWhile Char.isDigit).dropWhile isPySpace with
      | u :: _ =>
        if u = 'm' ∨ u = 'h' ∨ u = 'd' ∨ u = 's' then
          some (String.mk ((c :: rest.takeWhile Char.isDigit) ++ [u]))
        else searchNumericTimeAux fuel (rest.dropWhile Char.isDigit)
      | [] => none
    else searchNumericTimeAux fuel rest

/-- Wrapper supplying the always-sufficient fuel (each step consumes at
least one character). -/
def searchNumericTime (l : List Char) : Option String :=
  searchNumericTimeAux l.length l

/-- `NLPProcessor._extract_time_range`: the `self.time_patterns` loop
(dict insertion order minute, hour, day, week, each mapped through the
inline dict), then the numeric regex, then the `"1h"` default. -/
def extract_time_range (query : String) : String :=
  let q := pyLower query
  if ["last minute", "1m", "60s"].any (fun pat => pyIn pat q) then "1m"
  else if ["last hour", "1h", "hour ago"].any (fun pat => pyIn pat q) then "1h"
  else if ["today", "last day", "24h", "day ago"].any (fun pat => pyIn pat q) then "24h"
  else if ["this week", "last week", "7d", "week ago"].any (fun pat => pyIn pat q) then "7d"
  else
    match searchNumericTime q.toList with
    | some s => s
    | none => "1h"

/-- `NLPProcessor._extract_aggregation`. -/
def extract_aggregation (query : String) : String :=
  let q := pyLower query
  if ["average", "avg", "mean"].any (fun w => pyIn w q) then "avg"
  else if ["sum", "total"].any (fun w => pyIn w q) then "sum"
  else if ["max", "maximum", "peak"].any (fun w => pyIn w q) then "max"
  else if ["min", "minimum", "lowest"].any (fun w => pyIn w q) then "min"
  else "avg"

/-- The structured-query dict `parse_user_query` returns (all keys always
present there). -/
structure Components where
  intent : String
  metrics : List String
  services : List String
  time_range : String
  aggregation : String
  filters : List (String × String)
  query_type : String
  original_query : String
deriving Repr, DecidableEq

/-- The JSON object extracted from the language model's reply by
`_analyze_intent_with_ai`: each field is `some v` when the key is present
(possibly with an empty value) and `none` when absent.  The method's own
`except` path and its no-JSON path both return the empty dict, i.e. the
all-`none` record. -/
structure IntentDict where
  intent : Option String := none
  metrics : Option (List String) := none
  services : Option (List String) := none
  time_range : Option String := none
  aggregation : Option String := none
  filters : Option (List (String × String)) := none
  query_type : Option String := none
deriving Repr, DecidableEq

/-- The empty dict `\x7b\x7d` that `_analyze_intent_with_ai` returns when the
model call fails or its output holds no parsable JSON object. -/
def emptyIntent : IntentDict := {}

/-- `NLPProcessor.parse_user_query`: each component is
`intent.get(key, deterministic_fallback)` -- the model's value is used
whenever the key is present, and the deterministic extractor otherwise.
The surrounding `try` never reaches its `except` arm: the intent stage
catches its own failures (returning the empty dict) and the extractors are
total, so this function is total too. -/
def parse_user_query (ai : IntentDict) (query : String)
    (available_services available_metrics : List String) : Components :=
  { intent := ai.intent.getD "unknown"
  , metrics := ai.metrics.getD (extract_metrics query available_metrics)
  , services := ai.services.getD (extract_services query available_services)
  , time_range := ai.time_range.getD (extract_time_range query)
  , aggregation := ai.aggregation.getD (extract_aggregation query)
  , filters := ai.filters.getD []
  , query_type := ai.query_type.getD "metrics"
  , original_query := query }

/-- `str.replace('\x7b', repl, 1)`: replace the first occurrence of the
opening brace. -/
def replaceBraceOnce (repl : String) : List Char → List Char
  | [] => []
  | c :: rest => if c = '\x7b' then repl.toList ++ rest else c :: replaceBraceOnce repl rest

/-- The service-filter block of `generate_prometheus_query`: the joined
regex alternation is inserted into the first existing label braces, or
appended as new braces. -/
def inject_service_filter (base : String) (services : List String) : String :=
  let service_filter := String.intercalate "|" services
  if pyIn "\x7b" base then
    String.mk (replaceBraceOnce ("\x7bjob=~\"" ++ service_filter ++ "\",") base.toList)
  else
    base ++ "\x7bjob=~\"" ++ service_filter ++ "\"\x7d"

/-- The `agg_func` dict lookup with default `"avg"`. -/
def agg_func (aggregation : String) : String :=
  if aggregation = "avg" then "avg"
  else if aggregation = "sum" then "sum"
  else if aggregation = "max" then "max"
  else if aggregation = "min" then "min"
  else "avg"

/-- `NLPProcessor.generate_prometheus_query`.  `None` models the explicit
`return None` (no metrics and not an alerts intent); the function's
`except` arm is unreachable (the body is total), so no other input yields
`None`. -/
def generate_prometheus_query (c : Components) : Option String :=
  if c.metrics.isEmpty ∧ c.intent ≠ "alerts" then none
  else if c.intent = "alerts" then some "ALERTS\x7balertstate=\"firing\"\x7d"
  else if c.intent = "health" ∨ pyIn "health" (pyLower c.original_query) then some "up"
  else
    let base :=
      if c.intent = "cpu" ∨ c.metrics.any (fun m => pyIn "cpu" (pyLower m)) then
        if c.metrics.contains "cpu_usage_percent" then "cpu_usage_percent"
        else "rate(cpu_seconds_total[5m]) * 100"
      else if c.intent = "memory" ∨ c.metrics.any (fun m => pyIn "memory" (pyLower m)) then
        if c.metrics.contains "memory_usage_percent" then "memory_usage_percent"
        else "memory_working_set_bytes"
      else if c.intent = "network" ∨ c.metrics.any (fun m => pyIn "network" (pyLower m)) then
        "rate(network_receive_bytes_total[5m])"
      else c.metrics.headD "up"
    let withFilter :=
      if ¬ c.services.isEmpty then inject_service_filter base c.services else base
    let final :=
      if c.aggregation ≠ "" ∧ c.aggregation ≠ "raw" then
        if ¬ c.services.isEmpty then
          agg_func c.aggregation ++ " by (job) (" ++ withFilter ++ ")"
        else
          agg_func c.aggregation ++ "(" ++ withFilter ++ ")"
      else withFilter
    some final

/-- `NLPProcessor._fallback_response`: the deterministic sentence built
from the result counts (and, in the no-data case, the query text). -/
def fallback_response (query : String) (metrics : List MetricOut)
    (alerts : List ParsedAlert) : String :=
  match alerts with
  | _ :: _ =>
    "Found " ++ toString alerts.length ++
      " active alerts. The most critical ones need attention."
  | [] =>
    match metrics with
    | _ :: _ =>
      "Retrieved " ++ toString metrics.length ++
        " metrics for your query. The data shows recent activity across your monitored services."
    | [] =>
      "No data found for query \x27" ++ query ++
        "\x27. Please check if the services are running and metrics are available."

/-- `NLPProcessor.generate_response`: the `try` block builds the data
summary and prompt and awaits the language-model call, whose outcome is
the `llm` parameter (`Except.error` = the call, or anything else in the
`try` block, raised); any failure lands in the `except` arm, which returns
`_fallback_response`. -/
def generate_response (llm : Except String String) (query : String)
    (metrics : List MetricOut) (alerts : List ParsedAlert) : String :=
  match llm with
  | Except.ok text => text.trim
  | Except.error _ => fallback_response query metrics alerts

/-! ### Conversation engine (`ai/conversation_engine.py`) and the
`ChatMessage` model (`models.py`)

`models.py` declares `ChatMessage` with fields `type` (required, a
`MessageType`), `content` (required), `timestamp` (defaulted) and
`metadata` (optional).  `conversation_engine.py` constructs
`ChatMessage(content=..., sender=..., timestamp=..., metadata=...)` and
reads `message.sender`.  Pydantic ignores the unknown `sender` keyword and
rejects the construction because the required `type` field is missing; an
attribute read of `sender` on a constructed model raises
`AttributeError`.  Both effects are embedded below. -/

/-- A value of the `models.ChatMessage` pydantic model: exactly its
declared fields. -/
structure ChatMessage where
  type : String
  content : String
  timestamp : String
  metadata : Option (List (String × String))
deriving Repr, DecidableEq

/-- Pydantic attribute access on a `ChatMessage` for string-valued
attributes: only the model's declared fields exist; any other name raises
`AttributeError` (`none`). -/
def chatMessageAttr (m : ChatMessage) (attr : String) : Option String :=
  if attr = "type" then some m.type
  else if attr = "content" then some m.content
  else if attr = "timestamp" then some m.timestamp
  else none

/-- The dict `_store_message` serialises into the Redis list. -/
structure StoredMessage where
  content : String
  sender : String
  timestamp : String
  metadata : List (String × String)
deriving Repr, DecidableEq

/-- The `message_data` construction in `_store_message`: reads the
attributes `content`, `sender`, `timestamp`, `metadata` in order; the
first missing attribute raises (`none`). -/
def buildMessageData (m : ChatMessage) : Option StoredMessage := do
  let c ← chatMessageAttr m "content"
  let s ← chatMessageAttr m "sender"
  let t ← chatMessageAttr m "timestamp"
  pure { content := c, sender := s, timestamp := t, metadata := m.metadata.getD [] }

/-- `ConversationEngine._store_message` acting on one session's Redis list
(newest first): `lpush` the serialised message, `ltrim` to the first
`max_conversation_length = 50` entries, refresh the TTL.  Any exception in
the `try` block is caught and logged, leaving the list unchanged. -/
def store_message (store : List StoredMessage) (m : ChatMessage) : List StoredMessage :=
  match buildMessageData m with
  | some d => (d :: store).take 50
  | none => store

/-- The keyword names `process_message` passes to `ChatMessage(...)` for
the inbound user message. -/
def userMessageKwargs : List String := ["content", "sender", "timestamp"]

/-- The keyword names passed for the assistant response message. -/
def assistantMessageKwargs : List String := ["content", "sender", "timestamp", "metadata"]

/-- The keyword names passed for the error-path response message. -/
def errorMessageKwargs : List String := ["content", "sender", "timestamp", "metadata"]

/-- Pydantic construction check for `models.ChatMessage`: unknown keywords
are ignored and every required field (`type`, `content` -- the two without
defaults) must be supplied, else `ValidationError` is raised. -/
def chatMessageCtorOk (provided : List String) : Bool :=
  ["type", "content"].all (fun f => provided.contains f)

/-- The `ValidationError` text for a `ChatMessage` construction missing
its required `type` field. -/
def chatMessageValidationError : String :=
  "1 validation error for ChatMessage: type field required"

/-- The keyword names `_get_conversation_history` passes to
`ChatMessage(...)` when reconstructing a stored entry
(conversation_engine.py:322-327). -/
def historyMessageKwargs : List String := ["content", "sender", "timestamp", "metadata"]

/-- The reconstruction loop of `_get_conversation_history`: each fetched
entry is rebuilt as a `ChatMessage(...)`, again without the required
`type` field; pydantic's `ValidationError` is not a `json.JSONDecodeError`
or `KeyError`, so the inner `except` does not catch it and it escapes the
loop at the first entry. -/
def read_history : List StoredMessage → Except String (List StoredMessage)
  | [] => Except.ok []
  | e :: rest =>
    if chatMessageCtorOk historyMessageKwargs then
      match read_history rest with
      | Except.ok l => Except.ok (e :: l)
      | Except.error err => Except.error err
    else Except.error chatMessageValidationError

/-- `ConversationEngine._get_conversation_history`: `lrange` the first
`limit` entries (newest first), rebuild each as a `ChatMessage` and return
them reversed (chronological order); the escaped `ValidationError` is
caught by the outer `try`, which returns `[]`. -/
def get_conversation_history (store : List StoredMessage) (limit : Nat) :
    List StoredMessage :=
  match read_history (store.take limit) with
  | Except.ok l => l.reverse
  | Except.error _ => []

/-- `ConversationEngine.process_message`.  The body of the `try` block
after the user-message construction (store, history, enumerations, parse,
respond, assistant-message construction and store) is abstracted as
`runTurn`, because control only reaches it when the first
`ChatMessage(...)` construction succeeds.  The `except` arm constructs the
error-path `ChatMessage`; if that construction itself raises, the
exception propagates to the caller (`Except.error`). -/
def process_message (runTurn : String → String → Except String String)
    (message session_id : String) : Except String String :=
  if chatMessageCtorOk userMessageKwargs then
    match runTurn message session_id with
    | Except.ok response_content =>
      if chatMessageCtorOk assistantMessageKwargs then Except.ok response_content
      else
        if chatMessageCtorOk errorMessageKwargs then
          Except.ok ("I encountered an error processing your request: " ++
            chatMessageValidationError ++ ". Please try rephrasing your question.")
        else Except.error chatMessageValidationError
    | Except.error e =>
      if chatMessageCtorOk errorMessageKwargs then
        Except.ok ("I encountered an error processing your request: " ++ e ++
          ". Please try rephrasing your question.")
      else Except.error chatMessageValidationError
  else
    if chatMessageCtorOk errorMessageKwargs then
      Except.ok ("I encountered an error processing your request: " ++
        chatMessageValidationError ++ ". Please try rephrasing your question.")
    else Except.error chatMessageValidationError

/-! ### Specification-side definitions

The definitions below render the (amended) specification sentences, to be
compared with the source-derived definitions above.  They are the only
definitions in this file written from the spec's words rather than the
source. -/

/-- Spec wording (C3): the deterministic baseline descriptor the fast
stage produces on its own. -/
def baseline_descriptor (query : String)
    (available_services available_metrics : List String) : Components :=
  { intent := "unknown"
  , metrics := extract_metrics query available_metrics
  , services := extract_services query available_services
  , time_range := extract_time_range query
  , aggregation := extract_aggregation query
  , filters := []
  , query_type := "metrics"
  , original_query := query }

/-- Spec wording (C3): the text carries a time signal -- a time-unit
phrase from the keyword dictionary or a number followed by a unit
letter. -/
def has_time_signal (query : String) : Bool :=
  let q := pyLower query
  (["last minute", "1m", "60s"].any (fun pat => pyIn pat q)) ∨
  (["last hour", "1h", "hour ago"].any (fun pat => pyIn pat q)) ∨
  (["today", "last day", "24h", "day ago"].any (fun pat => pyIn pat q)) ∨
  (["this week", "last week", "7d", "week ago"].any (fun pat => pyIn pat q)) ∨
  (searchNumericTime q.toList).isSome

/-- Spec wording (C3): the text carries an aggregation keyword from one of
the four aggregation-word groups. -/
def has_agg_signal (query : String) : Bool :=
  let q := pyLower query
  (["average", "avg", "mean"].any (fun w => pyIn w q)) ∨
  (["sum", "total"].any (fun w => pyIn w q)) ∨
  (["max", "maximum", "peak"].any (fun w => pyIn w q)) ∨
  (["min", "minimum", "lowest"].any (fun w => pyIn w q))

/-- Spec wording (C4): the firing-alerts selector. -/
def firing_alerts_selector : String := "ALERTS\x7balertstate=\"firing\"\x7d"

/-- Spec wording (C4): the liveness metric. -/
def liveness_metric : String := "up"

/-- Spec wording (C4): the canonical expression for the matched metric
domain -- an exact requested-metric-name match is preferred over the
domain's synthesized expression; outside the three domains the first
requested metric name is used (the liveness metric only if none was
given). -/
def canonical_base_spec (c : Components) : String :=
  if c.intent = "cpu" ∨ c.metrics.any (fun m => pyIn "cpu" (pyLower m)) then
    if c.metrics.contains "cpu_usage_percent" then "cpu_usage_percent"
    else "rate(cpu_seconds_total[5m]) * 100"
  else if c.intent = "memory" ∨ c.metrics.any (fun m => pyIn "memory" (pyLower m)) then
    if c.metrics.contains "memory_usage_percent" then "memory_usage_percent"
    else "memory_working_set_bytes"
  else if c.intent = "network" ∨ c.metrics.any (fun m => pyIn "network" (pyLower m)) then
    "rate(network_receive_bytes_total[5m])"
  else c.metrics.headD "up"

/-- Spec wording (C4): service filters are injected as a regex-alternation
job-label matcher, spliced into the first existing label braces when the
expression has any, and appended as a fresh brace block otherwise. -/
def inject_filter_spec (base : String) (services : List String) : String :=
  let matcher := "job=~\"" ++ String.intercalate "|" services ++ "\""
  let pre := base.toList.takeWhile (fun ch => ch ≠ '\x7b')
  match base.toList.dropWhile (fun ch => ch ≠ '\x7b') with
  | [] => base ++ "\x7b" ++ matcher ++ "\x7d"
  | _brace :: tailChars =>
    String.mk (pre ++ '\x7b' :: (matcher.toList ++ ',' :: tailChars))

/-- Spec wording (C4): a non-raw (and non-empty) aggregation wraps the
expression in the matching aggregation function (unknown names falling
back to `avg`), grouped by the job label exactly when service filters are
present. -/
def wrap_agg_spec (c : Components) (base : String) : String :=
  if c.aggregation = "" ∨ c.aggregation = "raw" then base
  else if c.services.isEmpty then agg_func c.aggregation ++ "(" ++ base ++ ")"
  else agg_func c.aggregation ++ " by (job) (" ++ base ++ ")"

/-- Spec wording (amended C4): the full deterministic mapping.  Alerts
intent short-circuits to the bare firing-alerts selector; otherwise an
empty requested-metric list produces no query at all; health intent or a
"health" substring short-circuits to the bare liveness metric; every
remaining descriptor gets the canonical domain expression with the service
filter injected and the aggregation wrapper applied. -/
def prom_query_spec (c : Components) : Option String :=
  if c.intent = "alerts" then some firing_alerts_selector
  else if c.metrics.isEmpty then none
  else if c.intent = "health" ∨ pyIn "health" (pyLower c.original_query) then
    some liveness_metric
  else
    some (wrap_agg_spec c
      (if c.services.isEmpty then canonical_base_spec c
       else inject_filter_spec (canonical_base_spec c) c.services))

/-! ### Concrete instances used by witnesses and counterexamples -/

/-- The scenario text of §8 of the spec. -/
def checkoutQuery : String := "what\x27s the memory usage for service \x27checkout\x27"

/-- The expected descriptor for the checkout scenario. -/
def checkoutComponents : Components :=
  { intent := "unknown"
  , metrics := ["memory_usage_percent"]
  , services := ["checkout"]
  , time_range := "1h"
  , aggregation := "avg"
  , filters := []
  , query_type := "metrics"
  , original_query := checkoutQuery }

/-- A healthy connector whose `query_metrics` raises. -/
def connPromEx : Connector :=
  { name := "prometheus", health := some true, query := fun _ => none }

/-- A connector whose health check returned `False`. -/
def connAzureEx : Connector :=
  { name := "azure_monitor", health := some false, query := fun _ => some [] }

/-- A connector whose health check itself raised. -/
def connGrafanaEx : Connector :=
  { name := "grafana", health := none, query := fun _ => some [] }

/-- An Azure alerts payload entry carrying severity "Sev2". -/
def azureSev2AlertEx : AzureAlertEntry :=
  { essentials := [("severity", "Sev2"), ("alertRule", "HighCPU")]
  , contextDescription := none }

/-- An Alertmanager payload entry in the active state. -/
def amActiveAlertEx : AmAlertEntry :=
  { state := "active"
  , labels := [("alertname", "HighCPU"), ("severity", "page")]
  , annots := [] }

/-- An Azure metrics payload with one timestamped point carrying a
non-zero average -- the smallest payload that makes `_parse_azure_metrics`
attempt a `MetricData(...)` construction. -/
def azureOnePointPayloadEx : List AzureMetricEntry :=
  [ { name := some "Percentage CPU", unit := some "Percent"
    , timeseries :=
      [ { metadatavalues := []
        , data :=
          [ { timeStamp := some "2024-01-01T00:00:00Z", average := some 5
            , maximum := none, minimum := none, total := none } ] } ] } ]

/-- Three concrete metric samples. -/
def threeMetricsEx : List MetricOut :=
  [ { name := "cpu_usage_percent", value := 41, timestamp := "t1"
    , labels := [("job", "web")], unit := "percent" }
  , { name := "cpu_usage_percent", value := 43, timestamp := "t2"
    , labels := [("job", "web")], unit := "percent" }
  , { name := "cpu_usage_percent", value := 40, timestamp := "t3"
    , labels := [("job", "api")], unit := "percent" } ]

/-- A descriptor with health intent and no requested metrics. -/
def healthNoMetricsEx : Components :=
  { intent := "health"
  , metrics := []
  , services := []
  , time_range := "1h"
  , aggregation := "avg"
  , filters := []
  , query_type := "health"
  , original_query := "how is the system doing" }

/-- A model reply whose `time_range` key is present but empty. -/
def aiEmptyTimeRangeEx : IntentDict := { time_range := some "" }

/-- A model reply that overrides the time range and aggregation. -/
def aiOverridesEx : IntentDict := { time_range := some "24h", aggregation := some "max" }

/-- A concrete `models.ChatMessage` value (the model's own required
fields). -/
def chatMessageEx : ChatMessage :=
  { type := "user", content := "hi", timestamp := "2024-01-01T00:00:00", metadata := none }

/-! ## Theorems -/

/-- C10: `AzureMonitorConnector.get_metrics_list` returns the same fixed
14-name list beginning with "Percentage CPU" for every connector state --
it reads nothing from the backend, the credentials or prior calls (it is a
total constant function, so it performs no remote call and cannot
fail). -/
theorem azure_metrics_list_constant (s₁ s₂ : AzureConnectorState) :
    azure_get_metrics_list s₁ = azure_get_metrics_list s₂ ∧
    (azure_get_metrics_list s₁).length = 14 ∧
    (azure_get_metrics_list s₁).head? = some "Percentage CPU" :=
  ⟨rfl, rfl, rfl⟩

/-- C9: on the text "what's the memory usage for service 'checkout'" with
available metrics including `memory_usage_percent` and services including
`checkout`, and no overriding model fields, the parser yields exactly the
descriptor with `metrics = ["memory_usage_percent"]`,
`services = ["checkout"]`, `aggregation = "avg"`, and the translated
PromQL query is the `avg by (job)` wrapper around the metric with a
job-label filter for checkout. -/
theorem checkout_scenario :
    parse_user_query emptyIntent checkoutQuery ["checkout", "payments"]
        ["memory_usage_percent", "cpu_usage_percent"] = checkoutComponents ∧
    generate_prometheus_query checkoutComponents =
      some "avg by (job) (memory_usage_percent\x7bjob=~\"checkout\"\x7d)" := by
  constructor
  · decide
  · decide

/-- C8 (code bug): `process_message` cannot return at all: the
`models.ChatMessage` pydantic model requires a `type` field that the
engine never passes (it passes `sender`, which the model does not
declare), so the very first `ChatMessage(...)` construction raises, and
the error-path `ChatMessage(...)` in the `except` arm raises for the same
reason -- the exception propagates to the caller for every message,
session and turn outcome. -/
theorem process_message_always_raises
    (runTurn : String → String → Except String String) (message session_id : String) :
    process_message runTurn message session_id =
      Except.error chatMessageValidationError := by
  rfl

/-- C5 (code bug): `_store_message` reads `message.sender`, an attribute
the `models.ChatMessage` pydantic model does not declare; the resulting
`AttributeError` is caught and the Redis list is left unchanged, so no
stored message is ever retrievable through `_get_conversation_history` --
the round-trip fails for every session state and every constructible
`ChatMessage`. -/
theorem store_message_never_persists (store : List StoredMessage) (m : ChatMessage)
    (limit : Nat) :
    store_message store m = store ∧
    get_conversation_history (store_message store m) limit =
      get_conversation_history store limit := by
  have h : store_message store m = store := rfl
  exact ⟨h, by rw [h]⟩

/-- C4, counterexample: a descriptor with health intent but an empty
requested-metric list hits the early `return None` (`not metrics and
intent != 'alerts'`), so no query -- in particular not the liveness metric
"up" -- is produced. -/
theorem health_intent_counterexample :
    generate_prometheus_query healthNoMetricsEx = none ∧
    healthNoMetricsEx.intent = "health" := by
  constructor
  · rfl
  · rfl

/-- C3, counterexample: a model reply whose `time_range` key is present
but empty overrides the deterministic baseline (`dict.get` only falls back
on an absent key), so the returned descriptor's `time_range` is the empty
string even though the baseline would have been "1h". -/
theorem empty_model_field_counterexample :
    (parse_user_query aiEmptyTimeRangeEx "show cpu now" [] []).time_range = "" ∧
    extract_time_range "show cpu now" = "1h" := by
  constructor
  · rfl
  · decide

/-- C7: whenever the language-model synthesis call fails, `generate_response`
returns `_fallback_response` built from the result counts: with any alert
present the alerts-count sentence, with no alerts and three metrics
exactly the sentence "Retrieved 3 metrics for your query. ...", with
neither the no-data sentence -- and the result is never empty (and the
embedding is a total function, so no exception escapes). -/
theorem synthesis_failure_fallback (e query : String) (metrics : List MetricOut)
    (alerts : List ParsedAlert) :
    (generate_response (Except.error e) query metrics alerts =
      fallback_response query metrics alerts) ∧
    (alerts = [] → metrics.length = 3 →
      generate_response (Except.error e) query metrics alerts =
        "Retrieved 3 metrics for your query. The data shows recent activity across your monitored services.") ∧
    (alerts ≠ [] →
      generate_response (Except.error e) query metrics alerts =
        "Found " ++ toString alerts.length ++
          " active alerts. The most critical ones need attention.") ∧
    (alerts = [] → metrics = [] →
      generate_response (Except.error e) query metrics alerts =
        "No data found for query \x27" ++ query ++
          "\x27. Please check if the services are running and metrics are available.") ∧
    generate_response (Except.error e) query metrics alerts ≠ "" := by
  refine ⟨rfl, ?_, ?_, ?_, ?_⟩
  · rintro rfl h3
    match metrics, h3 with
    | [m1, m2, m3], _ =>
      show "Retrieved " ++ toString (3 : Nat) ++
          " metrics for your query. The data shows recent activity across your monitored services." =
        "Retrieved 3 metrics for your query. The data shows recent activity across your monitored services."
      rfl
  · intro hne
    match alerts, hne with
    | a :: as, _ => rfl
  · rintro rfl rfl
    rfl
  · show fallback_response query metrics alerts ≠ ""
    unfold fallback_response
    match alerts with
    | _ :: _ => simp [String.ext_iff]
    | [] =>
      match metrics with
      | _ :: _ => simp [String.ext_iff]
      | [] => simp [String.ext_iff]

/-- C7, witness: the spec's own scenario -- synthesis fails with three
metrics and no alerts. -/
theorem synthesis_failure_fallback_witness :
    generate_response (Except.error "simulated error") "show cpu" threeMetricsEx [] =
      "Retrieved 3 metrics for your query. The data shows recent activity across your monitored services." :=
  (synthesis_failure_fallback "simulated error" "show cpu" threeMetricsEx []).2.1 rfl rfl

/-- Parsing an Azure alerts payload succeeds only when it holds no alert
at all (every entry attempts the rejected construction). -/
theorem parse_azure_alerts_ok_empty :
    ∀ (entries : List AzureAlertEntry) (l : List ParsedAlert),
      parse_azure_alerts entries = Except.ok l → l = [] := by
  intro entries
  induction entries with
  | nil =>
    intro l h
    unfold parse_azure_alerts at h
    injection h with h2
    exact h2.symm
  | cons a rest ih =>
    intro l h
    unfold parse_azure_alerts at h
    have hctor : alertDataCtorOk connectorAlertKwargs = false := rfl
    rw [hctor] at h
    simp at h

/-- `azure_get_active_alerts` returns `[]` for every payload: the parse
either returns an empty list or raises, and the raise is swallowed. -/
theorem azure_alerts_always_empty (entries : List AzureAlertEntry) :
    azure_get_active_alerts entries = [] := by
  unfold azure_get_active_alerts
  rcases hp : parse_azure_alerts entries with e | l
  · rfl
  · rw [parse_azure_alerts_ok_empty entries l hp]

/-- Parsing an Alertmanager payload succeeds only when it holds no active
alert. -/
theorem parse_alertmanager_ok_empty :
    ∀ (entries : List AmAlertEntry) (l : List ParsedAlert),
      parse_alertmanager_response entries = Except.ok l → l = [] := by
  intro entries
  induction entries with
  | nil =>
    intro l h
    unfold parse_alertmanager_response at h
    injection h with h2
    exact h2.symm
  | cons a rest ih =>
    intro l h
    unfold parse_alertmanager_response at h
    by_cases hs : a.state = "active"
    · simp only [hs, if_true] at h
      have hctor : alertDataCtorOk connectorAlertKwargs = false := rfl
      rw [hctor] at h
      simp at h
    · simp only [hs, if_false] at h
      exact ih l h

/-- The firing fallback succeeds only on an empty metric list. -/
theorem alerts_from_firing_ok_empty :
    ∀ (metrics : List MetricOut) (l : List ParsedAlert),
      alerts_from_firing metrics = Except.ok l → l = [] := by
  intro metrics
  induction metrics with
  | nil =>
    intro l h
    unfold alerts_from_firing at h
    injection h with h2
    exact h2.symm
  | cons m rest ih =>
    intro l h
    unfold alerts_from_firing at h
    have hctor : alertDataCtorOk connectorAlertKwargs = false := rfl
    rw [hctor] at h
    simp at h

/-- `prometheus_get_active_alerts` returns `[]` for every Alertmanager
response and every firing-fallback result. -/
theorem prometheus_alerts_always_empty (amResp : Option (List AmAlertEntry))
    (firingMetrics : List MetricOut) :
    prometheus_get_active_alerts amResp firingMetrics = [] := by
  unfold prometheus_get_active_alerts
  rcases amResp with _ | entries
  · dsimp only
    rcases hp : alerts_from_firing firingMetrics with e | l
    · rfl
    · exact alerts_from_firing_ok_empty firingMetrics l hp
  · dsimp only
    rcases hp : parse_alertmanager_response entries with e | l
    · rfl
    · exact parse_alertmanager_ok_empty entries l hp

/-- C2 (code bug): no connector ever emits an `AlertData` at all, so no
severity -- normalized or otherwise -- ever reaches a caller.  Every
connector call site passes `name`/`severity`/`description`/`service`/
`timestamp`/`labels` to `AlertData(...)`, but `models.AlertData` requires
`alert_name`, `status` and `active_at`; the construction raises
`ValidationError` at the first alert (shown at the concrete failing
payloads), and `get_active_alerts` on both connectors swallows it and
returns `[]` for every payload. -/
theorem connector_alerts_never_emitted (azEntries : List AzureAlertEntry)
    (amResp : Option (List AmAlertEntry)) (firingMetrics : List MetricOut) :
    azure_get_active_alerts azEntries = [] ∧
    prometheus_get_active_alerts amResp firingMetrics = [] ∧
    parse_azure_alerts [azureSev2AlertEx] = Except.error alertDataValidationError ∧
    parse_alertmanager_response [amActiveAlertEx] =
      Except.error alertDataValidationError := by
  refine ⟨azure_alerts_always_empty azEntries,
    prometheus_alerts_always_empty amResp firingMetrics, rfl, rfl⟩

/-- The point loop succeeds only when it emitted nothing. -/
theorem emit_azure_points_ok_empty (mname munit : String)
    (labels : List (String × String)) :
    ∀ (ps : List AzurePoint) (l : List MetricOut),
      emit_azure_points mname munit labels ps = Except.ok l → l = [] := by
  intro ps
  induction ps with
  | nil =>
    intro l h
    unfold emit_azure_points at h
    injection h with h2
    exact h2.symm
  | cons p rest ih =>
    intro l h
    unfold emit_azure_points at h
    rcases hts : p.timeStamp with _ | t
    · rw [hts] at h; exact ih l h
    · rw [hts] at h
      rcases hv : selectAggValue p with _ | v
      · rw [hv] at h; exact ih l h
      · rw [hv] at h
        have hctor : metricDataCtorOk connectorMetricKwargs = false := rfl
        rw [hctor] at h
        simp at h

/-- The timeseries loop succeeds only when it emitted nothing. -/
theorem emit_azure_timeseries_ok_empty (mname munit resource_id : String) :
    ∀ (tss : List AzureTimeseries) (l : List MetricOut),
      emit_azure_timeseries mname munit resource_id tss = Except.ok l → l = [] := by
  intro tss
  induction tss with
  | nil =>
    intro l h
    unfold emit_azure_timeseries at h
    injection h with h2
    exact h2.symm
  | cons ts rest ih =>
    intro l h
    unfold emit_azure_timeseries at h
    dsimp only at h
    split at h
    · rename_i l1 hpts
      split at h
      · rename_i l2 hrest
        injection h with h2
        rw [emit_azure_points_ok_empty mname munit _ ts.data l1 hpts,
          ih l2 hrest] at h2
        exact h2.symm
      · cases h
    · cases h

/-- The metrics parse succeeds only when it emitted nothing. -/
theorem parse_azure_metrics_ok_empty :
    ∀ (entries : List AzureMetricEntry) (resource_id : String) (l : List MetricOut),
      parse_azure_metrics entries resource_id = Except.ok l → l = [] := by
  intro entries
  induction entries with
  | nil =>
    intro rid l h
    unfold parse_azure_metrics at h
    injection h with h2
    exact h2.symm
  | cons m rest ih =>
    intro rid l h
    unfold parse_azure_metrics at h
    split at h
    · rename_i l1 hts
      split at h
      · rename_i l2 hrest
        injection h with h2
        rw [emit_azure_timeseries_ok_empty _ _ _ m.timeseries l1 hts,
          ih rid l2 hrest] at h2
        exact h2.symm
      · cases h
    · cases h

/-- C6 (code bug): `_parse_azure_metrics` never emits a sample at all: a
timestamped point whose `or`-chain value is non-`None` attempts
`MetricData(...)` with `name`/`value`/`timestamp`/`labels`/`unit`, but
`models.MetricData` requires `metric_name`, `values` and `query`, so the
first would-be sample raises `ValidationError` (shown at the concrete
one-point payload), and `_get_resource_metrics` swallows it and returns
`[]` for every payload -- no point ever carries the claim's
priority-ordered value. -/
theorem azure_metrics_never_emitted (entries : List AzureMetricEntry)
    (resource_id : String) :
    azure_get_resource_metrics entries resource_id = [] ∧
    parse_azure_metrics azureOnePointPayloadEx "/subscriptions/s/providers/vm/myvm" =
      Except.error metricDataValidationError := by
  constructor
  · unfold azure_get_resource_metrics
    rcases hp : parse_azure_metrics entries resource_id with e | l
    · rfl
    · rw [parse_azure_metrics_ok_empty entries resource_id l hp]
  · rfl

/-- Association lookup over name-keyed entries built by `map`: a listed
connector's entry is found and holds exactly that connector's result. -/
theorem lookup_map_pair (f : Connector → List MetricOut) (l : List Connector)
    (hnd : (l.map (fun x => x.name)).Nodup) (c : Connector) (hc : c ∈ l) :
    (l.map (fun x => (x.name, f x))).lookup c.name = some (f c) := by
  induction l with
  | nil => cases hc
  | cons a tl ih =>
    simp only [List.map_cons, List.nodup_cons] at hnd
    rcases List.mem_cons.mp hc with rfl | htl
    · simp [List.lookup]
    · have hne : (c.name == a.name) = false := by
        have : c.name ≠ a.name := by
          intro h
          exact hnd.1 (h ▸ List.mem_map_of_mem (fun x => x.name) htl)
        simp [this]
      simp only [List.map_cons, List.lookup, hne]
      exact ih hnd.2 htl

/-- Association lookup over name-keyed entries built by `map`: an unlisted
name has no entry. -/
theorem lookup_map_pair_none (f : Connector → List MetricOut) (l : List Connector)
    (k : String) (hk : k ∉ l.map (fun x => x.name)) :
    (l.map (fun x => (x.name, f x))).lookup k = none := by
  induction l with
  | nil => rfl
  | cons a tl ih =>
    simp only [List.map_cons, List.mem_cons, not_or] at hk
    have hne : (k == a.name) = false := by simp [hk.1]
    simp only [List.map_cons, List.lookup, hne]
    exact ih hk.2

/-- C1: for every configured connector set (names pairwise distinct, as
the manager's name-keyed dict guarantees) and every query string,
`query_all_connectors` returns one entry per connector whose health check
returned truthy -- in order, with no other entries; a healthy connector
whose `query_metrics` raised or timed out contributes `[]` as its own
entry and leaves every other entry exactly its own connector's result; a
connector whose health check returned falsy or raised has no entry. -/
theorem query_fanout (cs : List Connector) (q : String)
    (hnodup : (cs.map (fun c => c.name)).Nodup) :
    ((query_all_connectors cs q).map Prod.fst =
      (get_healthy_connectors cs).map (fun c => c.name)) ∧
    (∀ c ∈ cs, c.health.getD false = true →
      (query_all_connectors cs q).lookup c.name = some ((c.query q).getD [])) ∧
    (∀ c ∈ cs, c.health.getD false = false →
      (query_all_connectors cs q).lookup c.name = none) := by
  have hsub : List.Sublist ((get_healthy_connectors cs).map (fun c => c.name))
      (cs.map (fun c => c.name)) :=
    (List.filter_sublist cs).map (fun c => c.name)
  have hndh : ((get_healthy_connectors cs).map (fun c => c.name)).Nodup :=
    hnodup.sublist hsub
  refine ⟨?_, ?_, ?_⟩
  · simp [query_all_connectors, List.map_map, Function.comp]
  · intro c hc hh
    exact lookup_map_pair _ _ hndh c
      (List.mem_filter.mpr ⟨hc, by simp [hh]⟩)
  · intro c hc hh
    apply lookup_map_pair_none
    intro hmem
    rcases List.mem_map.mp hmem with ⟨d, hd, hdname⟩
    have hdcs : d ∈ cs := (List.mem_filter.mp hd).1
    have hdp : d.health.getD false = true := by
      have := (List.mem_filter.mp hd).2
      simpa using this
    have : d = c := List.inj_on_of_nodup_map hnodup hdcs hc hdname
    rw [this] at hdp
    rw [hdp] at hh
    cases hh

/-- C1, witness: three connectors -- healthy with a raising query, health
check returning `False`, and health check raising -- give exactly one `[]`
entry for the first and no entries for the others. -/
theorem query_fanout_witness :
    (query_all_connectors [connPromEx, connAzureEx, connGrafanaEx] "up").lookup
        "prometheus" = some [] ∧
    (query_all_connectors [connPromEx, connAzureEx, connGrafanaEx] "up").lookup
        "azure_monitor" = none := by
  have h := query_fanout [connPromEx, connAzureEx, connGrafanaEx] "up" (by decide)
  constructor
  · exact h.2.1 connPromEx (List.mem_cons_self _ _) rfl
  · exact h.2.2 connAzureEx (List.mem_cons_of_mem _ (List.mem_cons_self _ _)) rfl

/-- A successful numeric time-range match always produces a non-empty
string (digits followed by the unit letter). -/
theorem searchNumericTimeAux_ne_empty (fuel : Nat) :
    ∀ (l : List Char) (s : String), searchNumericTimeAux fuel l = some s → s ≠ "" := by
  induction fuel with
  | zero => intro l s h; cases h
  | succ n ih =>
    intro l s h
    match l with
    | [] => cases h
    | c :: rest =>
      unfold searchNumericTimeAux at h
      by_cases hd : c.isDigit
      · simp only [hd, if_true] at h
        rcases hdrop : (rest.dropWhile Char.isDigit).dropWhile isPySpace with _ | ⟨u, us⟩
        · rw [hdrop] at h; cases h
        · rw [hdrop] at h
          by_cases hu : (u = 'm' ∨ u = 'h' ∨ u = 'd' ∨ u = 's')
          · simp only [hu, if_true] at h
            cases h
            intro hempty
            have := congrArg String.data hempty
            simp at this
          · simp only [hu, if_false] at h
            exact ih _ _ h
      · simp only [hd, if_false] at h
        exact ih _ _ h

/-- The deterministic time-range extractor never returns an empty
string. -/
theorem extract_time_range_ne_empty (q : String) : extract_time_range q ≠ "" := by
  unfold extract_time_range
  dsimp only
  split_ifs <;> try decide
  rcases hs : searchNumericTime (pyLower q).toList with _ | s
  · simp [hs]
  · simp only [hs]
    exact searchNumericTimeAux_ne_empty _ _ _ hs

/-- The deterministic aggregation extractor only returns one of the four
aggregation names. -/
theorem extract_aggregation_mem (q : String) :
    extract_aggregation q ∈ (["avg", "sum", "max", "min"] : List String) := by
  unfold extract_aggregation
  dsimp only
  split_ifs <;> simp

/-- Without a time signal in the text the extractor returns the default
"1h". -/
theorem no_time_signal_default (q : String) (h : has_time_signal q = false) :
    extract_time_range q = "1h" := by
  unfold has_time_signal at h
  dsimp only at h
  simp only [decide_eq_false_iff_not, not_or, Bool.not_eq_true] at h
  obtain ⟨h1, h2, h3, h4, h5⟩ := h
  unfold extract_time_range
  dsimp only
  simp only [h1, h2, h3, h4, if_false, Bool.false_eq_true]
  rcases hs : searchNumericTime (pyLower q).toList with _ | s
  · rfl
  · rw [hs] at h5
    simp at h5

/-- Without an aggregation keyword in the text the extractor returns the
default "avg". -/
theorem no_agg_signal_default (q : String) (h : has_agg_signal q = false) :
    extract_aggregation q = "avg" := by
  unfold has_agg_signal at h
  dsimp only at h
  simp only [decide_eq_false_iff_not, not_or, Bool.not_eq_true] at h
  obtain ⟨h1, h2, h3, h4⟩ := h
  unfold extract_aggregation
  dsimp only
  simp only [h1, h2, h3, h4, if_false, Bool.false_eq_true]

/-- C3, amended: `parse_user_query` always returns a descriptor, and a
model-supplied field replaces the deterministic baseline exactly when the
field's key is present -- even when its value is empty (Python
`dict.get`); when the model stage fails or returns unparsable output
(`intent = \x7b\x7d`) the deterministic baseline is used unmodified; the
returned `time_range` and `aggregation` are non-empty whenever the model
did not supply those keys, resolving to "1h" and "avg" when the text
carries no time or aggregation keywords. -/
theorem parse_stage_field_overrides (ai : IntentDict) (q : String)
    (svcs mets : List String) :
    (ai = emptyIntent → parse_user_query ai q svcs mets = baseline_descriptor q svcs mets) ∧
    (∀ tr, ai.time_range = some tr → (parse_user_query ai q svcs mets).time_range = tr) ∧
    (ai.time_range = none →
      (parse_user_query ai q svcs mets).time_range = extract_time_range q ∧
      (parse_user_query ai q svcs mets).time_range ≠ "") ∧
    (ai.aggregation = none →
      (parse_user_query ai q svcs mets).aggregation = extract_aggregation q ∧
      (parse_user_query ai q svcs mets).aggregation ∈ ["avg", "sum", "max", "min"]) ∧
    (has_time_signal q = false → extract_time_range q = "1h") ∧
    (has_agg_signal q = false → extract_aggregation q = "avg") := by
  refine ⟨?_, ?_, ?_, ?_, no_time_signal_default q, no_agg_signal_default q⟩
  · rintro rfl; rfl
  · intro tr htr; simp [parse_user_query, htr]
  · intro h
    refine ⟨by simp [parse_user_query, h], ?_⟩
    simp only [parse_user_query, h, Option.getD_none]
    exact extract_time_range_ne_empty q
  · intro h
    refine ⟨by simp [parse_user_query, h], ?_⟩
    simp only [parse_user_query, h, Option.getD_none]
    exact extract_aggregation_mem q

/-- C3, witness: on "hello there" (no signals) the empty model reply
leaves the baseline untouched with defaults "1h"/"avg", and a model
reply carrying `time_range` overrides it. -/
theorem parse_stage_field_overrides_witness :
    parse_user_query emptyIntent "hello there" [] [] =
      baseline_descriptor "hello there" [] [] ∧
    (parse_user_query aiOverridesEx "hello there" [] []).time_range = "24h" ∧
    (parse_user_query emptyIntent "hello there" [] []).time_range = "1h" ∧
    (parse_user_query emptyIntent "hello there" [] []).aggregation = "avg" := by
  have h1 := parse_stage_field_overrides emptyIntent "hello there" [] []
  have h2 := parse_stage_field_overrides aiOverridesEx "hello there" [] []
  refine ⟨h1.1 rfl, h2.2.1 "24h" rfl, ?_, ?_⟩
  · have h3 := (h1.2.2.1 rfl).1
    have h4 := h1.2.2.2.2.1 (by decide)
    rw [h3, h4]
  · have h3 := (h1.2.2.2.1 rfl).1
    have h4 := h1.2.2.2.2.2 (by decide)
    rw [h3, h4]

/-- A single-character needle occurs as a substring exactly when the
character occurs in the haystack. -/
theorem listIsInfix_singleton (a : Char) (l : List Char) :
    listIsInfix [a] l = true ↔ a ∈ l := by
  induction l with
  | nil => simp [listIsInfix, List.isEmpty]
  | cons h t ih =>
    unfold listIsInfix
    simp only [List.isPrefixOf, Bool.or_eq_true, List.mem_cons]
    constructor
    · rintro (hpre | hrec)
      · left
        have : (a == h) = true := by
          revert hpre
          simp [List.isPrefixOf]
        exact eq_of_beq this
      · right; exact ih.mp hrec
    · rintro (rfl | hmem)
      · left; simp [List.isPrefixOf]
      · right; exact ih.mpr hmem

/-- The head that `dropWhile` stopped at fails the predicate. -/
theorem dropWhile_cons_head (p : Char → Bool) :
    ∀ (l : List Char) (x : Char) (xs : List Char),
      l.dropWhile p = x :: xs → p x = false := by
  intro l
  induction l with
  | nil => intro x xs h; cases h
  | cons a t ih =>
    intro x xs h
    by_cases hp : p a
    · rw [List.dropWhile_cons_of_pos hp] at h
      exact ih x xs h
    · rw [List.dropWhile_cons_of_neg hp] at h
      cases h
      exact Bool.eq_false_iff.mpr hp

/-- `str.replace('\x7b', repl, 1)` splits the string at its first opening
brace. -/
theorem replaceBraceOnce_eq (repl : String) (l : List Char) :
    replaceBraceOnce repl l =
      l.takeWhile (fun ch => ch ≠ '\x7b') ++
        (match l.dropWhile (fun ch => ch ≠ '\x7b') with
         | [] => []
         | _ :: t => repl.toList ++ t) := by
  induction l with
  | nil => rfl
  | cons c r ih =>
    unfold replaceBraceOnce
    by_cases hc : c = '\x7b'
    · subst hc
      simp [List.takeWhile, List.dropWhile]
    · simp only [hc, if_false]
      have hpred : (decide (c ≠ '\x7b')) = true := by simp [hc]
      simp only [List.takeWhile_cons, List.dropWhile_cons, hpred, if_true, List.cons_append]
      rw [ih]

/-- The source's brace-replacing filter injection equals the spec-side
splice-or-append formulation. -/
theorem inject_filter_eq (base : String) (services : List String) :
    inject_service_filter base services = inject_filter_spec base services := by
  unfold inject_service_filter inject_filter_spec
  by_cases hb : pyIn "\x7b" base = true
  · have hmem : '\x7b' ∈ base.toList := by
      have := (listIsInfix_singleton '\x7b' base.toList).mp
      apply this
      simpa [pyIn] using hb
    rcases hdrop : base.toList.dropWhile (fun ch => ch ≠ '\x7b') with _ | ⟨d, tail⟩
    · exfalso
      have hall := List.dropWhile_eq_nil_iff.mp hdrop
      have := hall '\x7b' hmem
      simp at this
    · have hd : d = '\x7b' := by
        have := dropWhile_cons_head _ _ _ _ hdrop
        simpa using this
      subst hd
      simp only [hb, if_true, hdrop]
      apply String.ext
      simp only [replaceBraceOnce_eq, hdrop]
      simp [String.ext_iff, List.append_assoc]
  · simp only [hb, if_false]
    have hnot : '\x7b' ∉ base.toList := by
      intro hmem
      exact hb ((listIsInfix_singleton '\x7b' base.toList).mpr hmem ▸ rfl)
    have hdrop : base.toList.dropWhile (fun ch => ch ≠ '\x7b') = [] := by
      apply List.dropWhile_eq_nil_iff.mpr
      intro x hx
      simp
      intro hxe
      exact hnot (hxe ▸ hx)
    rw [hdrop]
    apply String.ext
    simp [String.ext_iff, List.append_assoc]

/-- C4, amended: `generate_prometheus_query` computes exactly the spec
mapping with one correction -- the priority order starts with the alerts
short-circuit, then an empty requested-metric list yields no query at all
(`None`), and only then the health short-circuit and the domain
expressions; the alerts and health branches return the bare selector and
liveness metric (no filter or aggregation applied), and in the remaining
branch the service filter is injected (into existing braces or as new
ones) and a non-empty, non-raw aggregation wraps the expression, grouped
by the job label exactly when service filters are present. -/
theorem prom_query_refinement (c : Components) :
    generate_prometheus_query c = prom_query_spec c := by
  unfold generate_prometheus_query prom_query_spec
  by_cases ha : c.intent = "alerts"
  · simp [ha, firing_alerts_selector]
  · by_cases hm : c.metrics.isEmpty
    · simp [ha, hm]
    · by_cases hh : (c.intent = "health" ∨ pyIn "health" (pyLower c.original_query) = true)
      · simp [ha, hm, hh, liveness_metric]
      · simp only [ha, hm, hh, if_false, if_true, and_true, and_false, false_and, true_and,
          not_false_iff, Bool.false_eq_true]
        simp only [canonical_base_spec, wrap_agg_spec, inject_filter_eq]
        by_cases hs : c.services.isEmpty = true <;>
          by_cases h1 : c.aggregation = "" <;>
          by_cases h2 : c.aggregation = "raw" <;>
          simp [hs, h1, h2]

end AIMonitor
